import Mathlib

/-!
Verification of the client-side behavior layer of the `it-timeresistance`
storefront theme.  The Lean definitions below are a shallow embedding of the
JavaScript components the claims are about:

* `Overlay`  — the `BaseOverlay` custom element (`src/entrypoints/theme.js`):
  the `open` attribute as the single source of truth, `open()` / `close()` /
  `toggle()` and external attribute mutations routed through
  `attributeChangedCallback`, scroll-lock and event effects of
  `_handleOpen` / `_handleClose`, and the `destroy()` teardown bookkeeping.
* `RV`       — the `ResponsiveVideo` component
  (`src/scripts/components/responsive-video.js`): source selection
  (`getActiveSource`), deferred loading (`deferVideoSources`,
  `restoreVideoSources`, `setInitialSource`, `loadManualVideos`) and media
  error filtering (`handleVideoError`).
* `VVM`      — the `VideoViewportManager` singleton
  (`src/scripts/utils/helpers/pause-outside-videos.js`), HTML5 branch
  `handleHTML5Video` plus the 10-second grace timer.
* `Wishlist` — the local-storage wishlist
  (`getWishlist` / `setWishlist` / `updateWishlist` / `wishlistContains`
  in `src/scripts/utils/localization-manager.js`), including a small JSON
  value model for the `JSON.parse` behavior `getWishlist` relies on.
* `Events`   — the `CustomEvent` construction at each dispatch site.

Strings are processed over `List Char` so that all definitions evaluate by
`decide` / `rfl`.
-/

namespace JsStr

/-- Does the character list `pat` occur at the start of `l`?
Mirrors the leading-match part of JavaScript `String.prototype.includes`. -/
def startsWithCL : List Char → List Char → Bool
  | [], _ => true
  | _ :: _, [] => false
  | p :: ps, c :: cs => (p == c) && startsWithCL ps cs

/-- Does the character list `pat` occur anywhere inside `l`? -/
def infixOfCL (pat : List Char) : List Char → Bool
  | [] => startsWithCL pat []
  | c :: cs => startsWithCL pat (c :: cs) || infixOfCL pat cs

/-- JavaScript `s.includes(pat)`. -/
def strIncludes (s pat : String) : Bool :=
  infixOfCL pat.toList s.toList

/-- Digits-to-number accumulator for `parseInt` on a digit run. -/
def digitsToNat (ds : List Char) : Nat :=
  ds.foldl (fun acc c => acc * 10 + (c.toNat - '0'.toNat)) 0

/-- First maximal run of digits in a character list, if any.  Mirrors the
JavaScript regular-expression match `s.match(/\d+/)`. -/
def firstDigitRun : List Char → Option (List Char)
  | [] => none
  | c :: cs => if c.isDigit then some (c :: cs.takeWhile Char.isDigit) else firstDigitRun cs

/-- JavaScript `parseInt(s.match(/\d+/)[0])`: the first number occurring in
`s`, or `none` when `s` contains no digit. -/
def firstNum (s : String) : Option Nat :=
  (firstDigitRun s.toList).map digitsToNat

end JsStr

namespace Overlay

/-- Observable effects of a `BaseOverlay` state change, in the order the code
produces them: `_handleOpen` runs `disableBodyScroll`, the `onOpen` subclass
hook, then dispatches `overlay:open`; `_handleClose` runs `enableBodyScroll`,
`onClose`, then dispatches `overlay:close`.  `getScrollLockTarget` always
returns a non-null element (it falls back to the overlay itself), so the
scroll-lock call happens on every transition. -/
inductive Eff where
  | lockScroll
  | unlockScroll
  | hookOpen
  | hookClose
  | evtOpen
  | evtClose
deriving DecidableEq, Repr

/-- Operations that can touch the `open` attribute: the programmatic API and
external attribute mutations by other code. -/
inductive Op where
  | callOpen
  | callClose
  | callToggle
  | extSetAttr (v : String)
  | extRemoveAttr
deriving DecidableEq, Repr

/-- Effects of `_handleOpen` (theme.js lines 130-138). -/
def handleOpenEffs : List Eff := [.lockScroll, .hookOpen, .evtOpen]

/-- Effects of `_handleClose` (theme.js lines 140-148). -/
def handleCloseEffs : List Eff := [.unlockScroll, .hookClose, .evtClose]

/-- `attributeChangedCallback` for the observed `open` attribute
(theme.js lines 40-48): `_handleOpen` fires only on a null-to-non-null
change, `_handleClose` only on a non-null-to-null change. -/
def attributeChangedCallback (oldValue newValue : Option String) : List Eff :=
  if newValue.isSome && oldValue.isNone then handleOpenEffs
  else if newValue.isNone && oldValue.isSome then handleCloseEffs
  else []

/-- DOM `setAttribute('open', v)`: stores the value and notifies
`attributeChangedCallback` with the old and new values. -/
def setAttribute (a : Option String) (v : String) : Option String × List Eff :=
  (some v, attributeChangedCallback a (some v))

/-- DOM `removeAttribute('open')`: removing an absent attribute is a no-op
and produces no attribute-change notification. -/
def removeAttribute (a : Option String) : Option String × List Eff :=
  match a with
  | none => (none, [])
  | some old => (none, attributeChangedCallback (some old) none)

/-- `get isOpen()` (theme.js line 112): attribute presence. -/
def isOpen (a : Option String) : Bool := a.isSome

/-- `open()` (theme.js lines 120-123): early return when already open,
otherwise `setAttribute('open', '')`. -/
def openCall (a : Option String) : Option String × List Eff :=
  if isOpen a then (a, []) else setAttribute a ""

/-- `close()` (theme.js lines 125-128): early return when already closed,
otherwise `removeAttribute('open')`. -/
def closeCall (a : Option String) : Option String × List Eff :=
  if isOpen a then removeAttribute a else (a, [])

/-- `toggle()` (theme.js lines 116-118). -/
def toggleCall (a : Option String) : Option String × List Eff :=
  if isOpen a then closeCall a else openCall a

/-- One operation against the overlay: returns the new `open` attribute state
and the effects emitted during this operation. -/
def step : Op → Option String → Option String × List Eff
  | .callOpen, a => openCall a
  | .callClose, a => closeCall a
  | .callToggle, a => toggleCall a
  | .extSetAttr v, a => setAttribute a v
  | .extRemoveAttr, a => removeAttribute a

/-- Run a sequence of operations, concatenating the emitted effects. -/
def run : List Op → Option String → Option String × List Eff
  | [], a => (a, [])
  | op :: ops, a =>
    let r := step op a
    let r' := run ops r.1
    (r'.1, r.2 ++ r'.2)

/-- Number of actual closed-to-open state transitions along a run. -/
def openTransitions : List Op → Option String → Nat
  | [], _ => 0
  | op :: ops, a =>
    (if !isOpen a && isOpen (step op a).1 then 1 else 0) + openTransitions ops (step op a).1

/-- Number of actual open-to-closed state transitions along a run. -/
def closeTransitions : List Op → Option String → Nat
  | [], _ => 0
  | op :: ops, a =>
    (if isOpen a && !isOpen (step op a).1 then 1 else 0) + closeTransitions ops (step op a).1

theorem step_effects_char (op : Op) (a : Option String) :
    (step op a).2 =
      if !isOpen a && isOpen (step op a).1 then handleOpenEffs
      else if isOpen a && !isOpen (step op a).1 then handleCloseEffs
      else [] := by
  cases op <;> cases a <;>
    simp [step, openCall, closeCall, toggleCall, setAttribute, removeAttribute,
      attributeChangedCallback, isOpen]

theorem run_counts (ops : List Op) (a : Option String) :
    ((run ops a).2.count .evtOpen = openTransitions ops a) ∧
    ((run ops a).2.count .evtClose = closeTransitions ops a) ∧
    ((run ops a).2.count .lockScroll = openTransitions ops a) ∧
    ((run ops a).2.count .unlockScroll = closeTransitions ops a) := by
  induction ops generalizing a with
  | nil => simp [run, openTransitions, closeTransitions]
  | cons op ops ih =>
    have hstep := step_effects_char op a
    have hih := ih (step op a).1
    simp only [run, openTransitions, closeTransitions, List.count_append]
    by_cases h1 : (!isOpen a && isOpen (step op a).1) = true
    · rw [hstep]
      simp only [h1, if_true]
      have h2 : (isOpen a && !isOpen (step op a).1) = false := by
        revert h1; cases isOpen a <;> cases isOpen (step op a).1 <;> simp
      simp [h1, h2, handleOpenEffs, hih.1, hih.2.1, hih.2.2.1, hih.2.2.2]
    · by_cases h2 : (isOpen a && !isOpen (step op a).1) = true
      · rw [hstep]
        simp only [h1, if_false, h2, if_true]
        simp [h1, h2, handleCloseEffs, hih.1, hih.2.1, hih.2.2.1, hih.2.2.2]
      · rw [hstep]
        simp only [h1, if_false, h2]
        simp [h1, h2, hih.1, hih.2.1, hih.2.2.1, hih.2.2.2]

end Overlay

/-- C1: over every sequence of `open()`/`close()`/`toggle()` calls and external
`open`-attribute mutations, the `overlay:open` and `overlay:close` events and
the scroll-lock calls each occur exactly once per actual state transition;
an operation that causes no transition (such as `open()` when already open or
`close()` when already closed) emits no effect at all; and an external
attribute mutation produces exactly the same scroll-lock/hook/event effects
as the programmatic call, because both route through
`attributeChangedCallback`. -/
theorem overlay_events_once_per_transition
    (ops : List Overlay.Op) (a : Option String) (op : Overlay.Op) (v : String) :
    ((Overlay.run ops a).2.count .evtOpen = Overlay.openTransitions ops a
      ∧ (Overlay.run ops a).2.count .evtClose = Overlay.closeTransitions ops a
      ∧ (Overlay.run ops a).2.count .lockScroll = Overlay.openTransitions ops a
      ∧ (Overlay.run ops a).2.count .unlockScroll = Overlay.closeTransitions ops a)
    ∧ ((Overlay.step op a).2 =
        if !Overlay.isOpen a && Overlay.isOpen (Overlay.step op a).1 then Overlay.handleOpenEffs
        else if Overlay.isOpen a && !Overlay.isOpen (Overlay.step op a).1 then
          Overlay.handleCloseEffs
        else [])
    ∧ (Overlay.isOpen a = true → Overlay.step .callOpen a = (a, []))
    ∧ (Overlay.isOpen a = false → Overlay.step .callClose a = (a, []))
    ∧ (Overlay.isOpen a = false →
        (Overlay.step (.extSetAttr v) a).2 = (Overlay.step .callOpen a).2)
    ∧ (Overlay.isOpen a = true →
        (Overlay.step .extRemoveAttr a).2 = (Overlay.step .callClose a).2) := by
  refine ⟨Overlay.run_counts ops a, Overlay.step_effects_char op a, ?_, ?_, ?_, ?_⟩
  · intro h
    cases a with
    | none => simp [Overlay.isOpen] at h
    | some w => simp [Overlay.step, Overlay.openCall, Overlay.isOpen]
  · intro h
    cases a with
    | none => simp [Overlay.step, Overlay.closeCall, Overlay.isOpen]
    | some w => simp [Overlay.isOpen] at h
  · intro h
    cases a with
    | none =>
      simp [Overlay.step, Overlay.openCall, Overlay.setAttribute, Overlay.isOpen,
        Overlay.attributeChangedCallback]
    | some w => simp [Overlay.isOpen] at h
  · intro h
    cases a with
    | none => simp [Overlay.isOpen] at h
    | some w =>
      simp [Overlay.step, Overlay.closeCall, Overlay.removeAttribute, Overlay.isOpen]

/-- C1 witness: the theorem instantiated at a concrete run
(`open; open; external removeAttribute` from the closed state), with each
hypothesis discharged at a concrete attribute state. -/
theorem overlay_events_once_per_transition_witness :
    ((Overlay.run [.callOpen, .callOpen, .extRemoveAttr] none).2.count .evtOpen
        = Overlay.openTransitions [.callOpen, .callOpen, .extRemoveAttr] none
      ∧ (Overlay.run [.callOpen, .callOpen, .extRemoveAttr] none).2.count .evtClose
        = Overlay.closeTransitions [.callOpen, .callOpen, .extRemoveAttr] none
      ∧ (Overlay.run [.callOpen, .callOpen, .extRemoveAttr] none).2.count .lockScroll
        = Overlay.openTransitions [.callOpen, .callOpen, .extRemoveAttr] none
      ∧ (Overlay.run [.callOpen, .callOpen, .extRemoveAttr] none).2.count .unlockScroll
        = Overlay.closeTransitions [.callOpen, .callOpen, .extRemoveAttr] none)
    ∧ ((Overlay.step .callClose none).2 =
        if !Overlay.isOpen none && Overlay.isOpen (Overlay.step .callClose none).1 then
          Overlay.handleOpenEffs
        else if Overlay.isOpen none && !Overlay.isOpen (Overlay.step .callClose none).1 then
          Overlay.handleCloseEffs
        else [])
    ∧ (Overlay.isOpen none = true → Overlay.step .callOpen none = (none, []))
    ∧ (Overlay.isOpen none = false → Overlay.step .callClose none = (none, []))
    ∧ (Overlay.isOpen none = false →
        (Overlay.step (.extSetAttr "x") none).2 = (Overlay.step .callOpen none).2)
    ∧ (Overlay.isOpen none = true →
        (Overlay.step .extRemoveAttr none).2 = (Overlay.step .callClose none).2) :=
  overlay_events_once_per_transition [.callOpen, .callOpen, .extRemoveAttr] none .callClose "x"

namespace RV

/-- A `<source>` element as `ResponsiveVideo` sees it: its `media` attribute
(`none` when the attribute is absent) and its `src` attribute (`none` once
stripped by deferral). -/
structure SourceEl where
  media : Option String
  src : Option String
deriving DecidableEq, Repr

/-- The mobile-source predicate of `getActiveSource`
(responsive-video.js lines 288-301): the `media` attribute is present and
non-empty, contains `max-width`, contains a number, and the viewport width is
at most the first number occurring in it. -/
def isMaxSource (width : Nat) (s : SourceEl) : Bool :=
  match s.media with
  | none => false
  | some m =>
    !(m == "") && JsStr.strIncludes m "max-width" &&
      (match JsStr.firstNum m with
       | none => false
       | some n => width ≤ n)

/-- The large-source predicate of `getActiveSource`
(responsive-video.js lines 306-319): `min-width` bound satisfied by the
viewport width. -/
def isMinSource (width : Nat) (s : SourceEl) : Bool :=
  match s.media with
  | none => false
  | some m =>
    !(m == "") && JsStr.strIncludes m "min-width" &&
      (match JsStr.firstNum m with
       | none => false
       | some n => n ≤ width)

/-- The fallback predicate of `getActiveSource`: no `media` attribute at all
(`!source.hasAttribute('media')`). -/
def hasNoMediaAttr (s : SourceEl) : Bool := s.media.isNone

/-- `ResponsiveVideo.getActiveSource` (responsive-video.js lines 278-332):
first source whose `max-width` bound is satisfied, else first whose
`min-width` bound is satisfied, else the source without a `media` attribute,
else the first declared source; `none` when there are no sources at all. -/
def getActiveSource (sources : List SourceEl) (width : Nat) : Option SourceEl :=
  if sources.isEmpty then none
  else
    match sources.find? (isMaxSource width) with
    | some s => some s
    | none =>
      match sources.find? (isMinSource width) with
      | some s => some s
      | none =>
        match sources.find? hasNoMediaAttr with
        | some s => some s
        | none => sources.head?

/-- Modelled from the spec's words (section 4.3, "Source selection
algorithm"), for comparison with the code-derived `getActiveSource`:
evaluate declared sources in order — first any source whose breakpoint is a
maximum-width bound that the current viewport satisfies; else any source
whose breakpoint is a minimum-width bound satisfied; else the source with no
breakpoint; else the first declared source. -/
def specSelectSource (sources : List SourceEl) (width : Nat) : Option SourceEl :=
  match sources.find? (isMaxSource width) with
  | some s => some s
  | none =>
    match sources.find? (isMinSource width) with
    | some s => some s
    | none =>
      match sources.find? hasNoMediaAttr with
      | some s => some s
      | none => sources.head?

/-- The two-source layout used by the spec's concrete example. -/
def exampleSources : List SourceEl :=
  [⟨some "(max-width: 749px)", some "mobile.mp4"⟩,
   ⟨some "(min-width: 750px)", some "desktop.mp4"⟩]

end RV

/-- C2: `getActiveSource` realizes exactly the spec's selection order
(first satisfied `max-width` source, else first satisfied `min-width`
source, else the breakpoint-free source, else the first declared source),
and on the spec's concrete example `[{maxWidth:749},{minWidth:750}]` it
picks the `max-width` source at viewport width 500, the `min-width` source
at width 1000; with no matching breakpoint the no-breakpoint source is
chosen. -/
theorem responsive_video_source_selection (sources : List RV.SourceEl) (width : Nat) :
    RV.getActiveSource sources width = RV.specSelectSource sources width
    ∧ RV.getActiveSource RV.exampleSources 500 =
        some ⟨some "(max-width: 749px)", some "mobile.mp4"⟩
    ∧ RV.getActiveSource RV.exampleSources 1000 =
        some ⟨some "(min-width: 750px)", some "desktop.mp4"⟩
    ∧ RV.getActiveSource
        [⟨some "(max-width: 400px)", some "small.mp4"⟩, ⟨none, some "default.mp4"⟩] 800 =
        some ⟨none, some "default.mp4"⟩ := by
  refine ⟨?_, by decide, by decide, by decide⟩
  cases sources with
  | nil => simp [RV.getActiveSource, RV.specSelectSource]
  | cons s ss => simp [RV.getActiveSource, RV.specSelectSource]

namespace RVLoad

/-- The three deferred load-timing policies (`LOAD_TYPES` in
responsive-video.js lines 39-43). -/
inductive LoadType where
  | dom
  | load
  | manual
deriving DecidableEq, Repr

/-- `getLoadType` (responsive-video.js lines 116-127): the value of the
`data-lazy-type` attribute when it is one of `dom`, `load`, `manual`,
otherwise `null`. -/
def getLoadType (lazyAttr : Option String) : Option LoadType :=
  match lazyAttr with
  | some "dom" => some .dom
  | some "load" => some .load
  | some "manual" => some .manual
  | _ => none

/-- The `<video>` element: its `src` and `poster` attributes and its
`<source>` children. -/
structure VideoEl where
  src : Option String
  poster : Option String
  sources : List RV.SourceEl
deriving DecidableEq, Repr

/-- The media resource the browser would fetch when `video.load()` runs:
the `src` attribute if present, else the first `<source>` child that still
has a `src`.  (Model of the browser's resource-selection step, not of repo
code: a `load()` with no available source fetches nothing and raises the
empty-source media error instead.) -/
def loadFx (v : VideoEl) : List String :=
  match v.src with
  | some s => [s]
  | none =>
    match (v.sources.filterMap (fun se => se.src)).head? with
    | some s => [s]
    | none => []

/-- The component-visible state of one `ResponsiveVideo` instance: the
`state`/`elements` fields the claims touch, the stashed originals created by
deferral (`originalSources` is `none` while the `this.originalSources` field
is still undefined), and the list of network requests issued so far. -/
structure RVState where
  lazyType : Option LoadType
  isLoaded : Bool
  video : VideoEl
  originalVideoSrc : Option String
  originalPoster : Option String
  originalSources : Option (List (Nat × String))
  currentSource : Option String
  requests : List String
deriving DecidableEq, Repr

/-- `deferVideoSources` (responsive-video.js lines 194-237): stash the
`src`/`poster` attributes and every `<source>` child's `src` (with its
position), strip them all, then call `video.load()` — which, with every
source removed, fetches nothing. -/
def deferVideoSources (s : RVState) : RVState :=
  let origSrcs := (s.video.sources.enum.filterMap
    (fun p => p.2.src.map (fun u => (p.1, u))))
  let stripped : VideoEl :=
    { src := none, poster := none,
      sources := s.video.sources.map (fun se => { se with src := none }) }
  { s with
    video := stripped,
    originalVideoSrc := s.video.src,
    originalPoster := s.video.poster,
    originalSources := some origSrcs,
    requests := s.requests ++ loadFx stripped }

/-- Write `u` back into the `src` of the `<source>` child at position `i`. -/
def restoreSrcAt (l : List RV.SourceEl) (i : Nat) (u : String) : List RV.SourceEl :=
  match l.get? i with
  | some se => l.set i { se with src := some u }
  | none => l

/-- `restoreVideoSources` (responsive-video.js lines 242-272): put the
stashed `src`, `poster` and `<source>` `src` values back, then call
`video.load()`. -/
def restoreVideoSources (s : RVState) : RVState :=
  let vsrc := match s.originalVideoSrc with
    | some u => some u
    | none => s.video.src
  let vposter := match s.originalPoster with
    | some u => some u
    | none => s.video.poster
  let srcs := match s.originalSources with
    | some l => l.foldl (fun acc p => restoreSrcAt acc p.1 p.2) s.video.sources
    | none => s.video.sources
  let v : VideoEl := { src := vsrc, poster := vposter, sources := srcs }
  { s with video := v, requests := s.requests ++ loadFx v }

/-- `setInitialSource` (responsive-video.js lines 677-700): no-op when
already loaded; restore deferred sources when any were stashed
(`this.originalSources` is a truthy array after deferral even when empty);
then point the video at the active source for the current viewport width,
mark it loaded and call `video.load()`. -/
def setInitialSource (width : Nat) (s : RVState) : RVState :=
  if s.isLoaded then s
  else
    let s1 :=
      if s.originalSources.isSome || s.originalVideoSrc.isSome then restoreVideoSources s
      else s
    match RV.getActiveSource s1.video.sources width with
    | none => s1
    | some a =>
      let v : VideoEl := { s1.video with src := a.src }
      { s1 with
        video := v, currentSource := a.src, isLoaded := true,
        requests := s1.requests ++ loadFx v }

/-- One `responsive-video` element: its `data-lazy-type` and
`data-load-type` attributes plus the component state. -/
structure Elem where
  lazyAttr : Option String
  loadAttr : Option String
  st : RVState
deriving DecidableEq, Repr

/-- `connectedCallback` (responsive-video.js lines 97-110): read the load
type, defer the sources when a deferred policy is set (`setupElements`),
then `handleLoadType` — which loads immediately only when no deferred
policy is configured (`dom`/`load` wait for their triggers, `manual` waits
for an explicit call). -/
def connected (width : Nat) (lazyAttr loadAttr : Option String) (v : VideoEl) : Elem :=
  let lt := getLoadType lazyAttr
  let s0 : RVState :=
    { lazyType := lt, isLoaded := false, video := v,
      originalVideoSrc := none, originalPoster := none, originalSources := none,
      currentSource := none, requests := [] }
  let s1 := if lt.isSome then deferVideoSources s0 else s0
  let s2 := match lt with
    | none => setInitialSource width s1
    | some _ => s1
  { lazyAttr := lazyAttr, loadAttr := loadAttr, st := s2 }

/-- The `DOMContentLoaded` trigger registered by `loadOnDOMReady`. -/
def fireDomReady (width : Nat) (e : Elem) : Elem :=
  if e.st.lazyType = some .dom then { e with st := setInitialSource width e.st } else e

/-- The `window` `load` trigger registered by `loadOnWindowLoad`. -/
def fireWindowLoad (width : Nat) (e : Elem) : Elem :=
  if e.st.lazyType = some .load then { e with st := setInitialSource width e.st } else e

/-- `loadManualVideos` (responsive-video.js lines 893-908): queries
`responsive-video[data-load-type="manual"]` — note the attribute name —
and calls `setInitialSource` on every not-yet-loaded match. -/
def loadManualVideos (width : Nat) (es : List Elem) : List Elem :=
  es.map (fun e =>
    if e.loadAttr = some "manual" && !e.st.isLoaded then
      { e with st := setInitialSource width e.st }
    else e)

/-- The deferred-video markup used as concrete input: a video with a `src`,
a `poster` and two breakpointed `<source>` children. -/
def sampleVideo : VideoEl :=
  { src := some "video.mp4", poster := some "poster.jpg",
    sources :=
      [⟨some "(max-width: 749px)", some "mobile.mp4"⟩,
       ⟨some "(min-width: 750px)", some "desktop.mp4"⟩] }

/-- An element configured exactly as the spec describes manual deferral:
`data-lazy-type="manual"` and no `data-load-type` attribute. -/
def manualElem : Elem := connected 500 (some "manual") none sampleVideo

/-- The same element with the selector's attribute also present. -/
def bothAttrsElem : Elem := connected 500 (some "manual") (some "manual") sampleVideo

end RVLoad

/-- C3: evaluation at the failing input.  Deferral itself works as claimed:
after setup with `data-lazy-type="manual"` the video's `src` and `poster`
and every `<source>` `src` are stripped and no network request has been
issued; and `setInitialSource` (reached, e.g., when the element also carries
`data-load-type="manual"`) restores the originals, selects the active source
and loads it.  But for an element configured only with
`data-lazy-type="manual"` — the attribute `getLoadType` reads — invoking
`loadManualVideos` changes nothing: its selector matches
`data-load-type="manual"` instead, so the sources are never restored, the
video never loads, and no request is ever made. -/
theorem responsive_video_manual_load_bug :
    (RVLoad.manualElem.st.video.src = none
      ∧ RVLoad.manualElem.st.video.poster = none
      ∧ RVLoad.manualElem.st.video.sources.all (fun se => se.src.isNone)
      ∧ RVLoad.manualElem.st.requests = []
      ∧ RVLoad.manualElem.st.isLoaded = false)
    ∧ RVLoad.loadManualVideos 500 [RVLoad.manualElem] = [RVLoad.manualElem]
    ∧ ((RVLoad.loadManualVideos 500 [RVLoad.manualElem]).all
        (fun e => e.st.isLoaded = false && e.st.requests.isEmpty
          && e.st.video.src.isNone))
    ∧ (RVLoad.loadManualVideos 500 [RVLoad.bothAttrsElem] =
        [{ RVLoad.bothAttrsElem with
            st := { RVLoad.bothAttrsElem.st with
              video := { RVLoad.bothAttrsElem.st.video with
                src := some "mobile.mp4",
                poster := some "poster.jpg",
                sources := RVLoad.sampleVideo.sources },
              originalVideoSrc := some "video.mp4",
              originalPoster := some "poster.jpg",
              originalSources := some [(0, "mobile.mp4"), (1, "desktop.mp4")],
              currentSource := some "mobile.mp4",
              isLoaded := true,
              requests := ["video.mp4", "mobile.mp4"] } }]) := by
  refine ⟨⟨by decide, by decide, by decide, by decide, by decide⟩, by decide, by decide, by decide⟩

namespace VVM

/-- The observable state of one tracked HTML5 `<video>`: `muted`, `paused`,
and the two string-valued dataset entries the manager and `ResponsiveVideo`
use (`dataset.autoPaused`, `dataset.autoplay`; a dataset write of a boolean
stores the strings `"true"` / `"false"`). -/
structure V5 where
  muted : Bool
  paused : Bool
  autoPaused : Option String
  autoplayAttr : Option String
deriving DecidableEq, Repr

/-- Per-element manager state: the video plus whether the 10-second
grace-window timeout is pending (`state.timeoutId`). -/
structure TrackSt where
  video : V5
  timeoutPending : Bool
deriving DecidableEq, Repr

/-- Playback commands the manager issues on the media element. -/
inductive MediaCmd where
  | play
  | pause
deriving DecidableEq, Repr

/-- `handleHTML5Video` (pause-outside-videos.js lines 159-200).  Entering
view (intersection ratio at least the 0.5 threshold): cancel any pending
grace timer, and call `play()` when the element is flagged auto-paused or
carries `dataset.autoplay === 'true'`, clearing the auto-paused flag.
Leaving view: only when the element is unmuted and currently playing, call
`pause()`, flag it auto-paused and start the grace timer. -/
def handleHTML5Video (isIntersecting : Bool) (t : TrackSt) : TrackSt × List MediaCmd :=
  if isIntersecting then
    let t1 : TrackSt := { t with timeoutPending := false }
    if t1.video.autoPaused = some "true" || t1.video.autoplayAttr = some "true" then
      ({ t1 with video :=
          { t1.video with paused := false, autoPaused := some "false" } }, [.play])
    else (t1, [])
  else
    if !t.video.muted && !t.video.paused then
      ({ t with
          video := { t.video with paused := true, autoPaused := some "true" },
          timeoutPending := true }, [.pause])
    else (t, [])

/-- The grace-window timeout callback (pause-outside-videos.js lines
188-191): after 10 seconds out of view, clear the auto-paused flag. -/
def graceTimerFire (t : TrackSt) : TrackSt :=
  if t.timeoutPending then
    { t with video := { t.video with autoPaused := some "false" }, timeoutPending := false }
  else t

/-- Events the manager reacts to for one element. -/
inductive VEvt where
  | enter
  | leave
  | timerFire
deriving DecidableEq, Repr

/-- One manager step for a tracked HTML5 element. -/
def stepV : VEvt → TrackSt → TrackSt × List MediaCmd
  | .enter, t => handleHTML5Video true t
  | .leave, t => handleHTML5Video false t
  | .timerFire, t => (graceTimerFire t, [])

/-- An unmuted, playing, autoplay-tagged element (reachable: a
`ResponsiveVideo` with `data-autoplay` sets `dataset.autoplay = 'true'` and
starts muted, and the sound toggle can unmute it). -/
def autoplayUnmuted : TrackSt :=
  { video := { muted := false, paused := false, autoPaused := none,
               autoplayAttr := some "true" },
    timeoutPending := false }

end VVM

/-- C4: when a tracked HTML5 element leaves the viewport, a muted element is
never paused — the manager leaves its state untouched and issues no media
command at all — while an unmuted element that is playing is paused, flagged
auto-paused (`dataset.autoPaused = 'true'`), and the grace timer starts. -/
theorem viewport_manager_leave_view (t : VVM.TrackSt) :
    (t.video.muted = true → VVM.stepV .leave t = (t, []))
    ∧ (t.video.muted = false → t.video.paused = false →
        VVM.stepV .leave t =
          ({ t with
              video := { t.video with paused := true, autoPaused := some "true" },
              timeoutPending := true }, [.pause])) := by
  constructor
  · intro h
    simp [VVM.stepV, VVM.handleHTML5Video, h]
  · intro h hp
    simp [VVM.stepV, VVM.handleHTML5Video, h, hp]

/-- C4 witness: the theorem applied to a muted playing element and an
unmuted playing element. -/
theorem viewport_manager_leave_view_witness :
    (VVM.stepV .leave
        ⟨{ muted := true, paused := false, autoPaused := none, autoplayAttr := none }, false⟩ =
      (⟨{ muted := true, paused := false, autoPaused := none, autoplayAttr := none }, false⟩, []))
    ∧ (VVM.stepV .leave
        ⟨{ muted := false, paused := false, autoPaused := none, autoplayAttr := none }, false⟩ =
      (⟨{ muted := false, paused := true, autoPaused := some "true", autoplayAttr := none },
        true⟩, [.pause])) :=
  ⟨(viewport_manager_leave_view
      ⟨{ muted := true, paused := false, autoPaused := none, autoplayAttr := none }, false⟩).1
      rfl,
   (viewport_manager_leave_view
      ⟨{ muted := false, paused := false, autoPaused := none, autoplayAttr := none }, false⟩).2
      rfl rfl⟩

/-- C5 counterexample: take an unmuted, playing element with
`dataset.autoplay = 'true'` (`VVM.autoplayUnmuted`).  It leaves the viewport
and is auto-paused; the 10-second grace timer fires, clearing the
auto-paused flag; yet on re-entering the viewport the manager still issues
`play()` and the element ends up playing — because `handleHTML5Video`
resumes when `dataset.autoPaused === 'true' || dataset.autoplay === 'true'`.
This refutes the claim that after the grace window elapses re-entering the
viewport does not force playback. -/
theorem viewport_manager_grace_window_counterexample :
    ((VVM.stepV .leave VVM.autoplayUnmuted).1.video.autoPaused = some "true")
    ∧ ((VVM.stepV .timerFire (VVM.stepV .leave VVM.autoplayUnmuted).1).1.video.autoPaused
        = some "false")
    ∧ ((VVM.stepV .enter
          (VVM.stepV .timerFire (VVM.stepV .leave VVM.autoplayUnmuted).1).1).2 = [.play])
    ∧ ((VVM.stepV .enter
          (VVM.stepV .timerFire (VVM.stepV .leave VVM.autoplayUnmuted).1).1).1.video.paused
        = false) := by
  refine ⟨by decide, by decide, by decide, by decide⟩

/-- C5 (amended): re-entering the viewport while the auto-paused flag is
still set cancels the pending grace timer and resumes playback; when the
grace timer fires the auto-paused flag clears; and after the flag has
cleared, re-entering the viewport issues no play command — unless the
element carries `dataset.autoplay === 'true'`, in which case `play()` is
issued on every viewport entry. -/
theorem viewport_manager_grace_window (t : VVM.TrackSt) :
    (t.video.autoPaused = some "true" →
      (VVM.stepV .enter t).1.timeoutPending = false
      ∧ (VVM.stepV .enter t).2 = [.play]
      ∧ (VVM.stepV .enter t).1.video.paused = false)
    ∧ (t.timeoutPending = true →
        (VVM.stepV .timerFire t).1.video.autoPaused = some "false"
        ∧ (VVM.stepV .timerFire t).1.timeoutPending = false)
    ∧ (t.video.autoPaused ≠ some "true" → t.video.autoplayAttr ≠ some "true" →
        (VVM.stepV .enter t).2 = []
        ∧ (VVM.stepV .enter t).1.video.paused = t.video.paused)
    ∧ (t.video.autoplayAttr = some "true" → (VVM.stepV .enter t).2 = [.play]) := by
  refine ⟨?_, ?_, ?_, ?_⟩
  · intro h
    simp [VVM.stepV, VVM.handleHTML5Video, h]
  · intro h
    simp [VVM.stepV, VVM.graceTimerFire, h]
  · intro h h'
    simp [VVM.stepV, VVM.handleHTML5Video, h, h']
  · intro h
    simp [VVM.stepV, VVM.handleHTML5Video, h]

/-- C5 witness: the amended theorem applied to a flagged auto-paused element
(resumed on entry), an element with a pending timer (flag cleared on fire),
and an unflagged non-autoplay element (no play on entry). -/
theorem viewport_manager_grace_window_witness :
    ((VVM.stepV .enter
        ⟨{ muted := false, paused := true, autoPaused := some "true", autoplayAttr := none },
          true⟩).2 = [.play])
    ∧ ((VVM.stepV .timerFire
        ⟨{ muted := false, paused := true, autoPaused := some "true", autoplayAttr := none },
          true⟩).1.video.autoPaused = some "false")
    ∧ ((VVM.stepV .enter
        ⟨{ muted := false, paused := true, autoPaused := some "false", autoplayAttr := none },
          false⟩).2 = []) :=
  ⟨((viewport_manager_grace_window
      ⟨{ muted := false, paused := true, autoPaused := some "true", autoplayAttr := none },
        true⟩).1 rfl).2.1,
   ((viewport_manager_grace_window
      ⟨{ muted := false, paused := true, autoPaused := some "true", autoplayAttr := none },
        true⟩).2.1 rfl).1,
   ((viewport_manager_grace_window
      ⟨{ muted := false, paused := true, autoPaused := some "false", autoplayAttr := none },
        false⟩).2.2.1 (by decide) (by decide)).1⟩

namespace Wishlist

/-- One persisted wishlist entry `{ handle, variantId }` (both read from
string-valued data attributes in `setupButtons`). -/
structure WItem where
  handle : String
  variantId : String
deriving DecidableEq, Repr

/-- The pair-equality test used by `updateWishlist` / `wishlistContains`:
`item.handle === handle && item.variantId === variantId`. -/
def pairMatches (h v : String) (it : WItem) : Bool :=
  it.handle == h && it.variantId == v

/-- `updateWishlist` (localization-manager.js lines 488-501), at the level
of the list it persists through `setWishlist`: toggle — append the pair when
`findIndex` reports it absent, otherwise `splice` out the first matching
entry. -/
def updateWishlist (h v : String) (w : List WItem) : List WItem :=
  match w.findIdx? (pairMatches h v) with
  | none => w ++ [⟨h, v⟩]
  | some i => w.eraseIdx i

/-- `wishlistContains` (localization-manager.js lines 503-508). -/
def wishlistContains (h v : String) (w : List WItem) : Bool :=
  w.any (pairMatches h v)

/-- No two entries of the list share the same `(handle, variantId)` pair. -/
def noDupPairs : List WItem → Bool
  | [] => true
  | x :: xs => !(xs.any (pairMatches x.handle x.variantId)) && noDupPairs xs

theorem findIdx_eq_none_of_any_false {α : Type} (p : α → Bool) (l : List α)
    (h : l.any p = false) : l.findIdx? p = none := by
  induction l with
  | nil => rfl
  | cons x xs ih =>
    simp only [List.any_cons, Bool.or_eq_false_iff] at h
    simp [List.findIdx?_cons, h.1, ih h.2]

theorem findIdx_append_singleton {α : Type} (p : α → Bool) (l : List α) (x : α)
    (h : l.any p = false) (hx : p x = true) :
    (l ++ [x]).findIdx? p = some l.length := by
  induction l with
  | nil => simp [List.findIdx?_cons, hx]
  | cons y ys ih =>
    simp only [List.any_cons, Bool.or_eq_false_iff] at h
    simp [List.findIdx?_cons, h.1, ih h.2]

theorem eraseIdx_append_length {α : Type} (l : List α) (x : α) :
    (l ++ [x]).eraseIdx l.length = l := by
  induction l with
  | nil => rfl
  | cons y ys ih => simp [List.eraseIdx, ih]

theorem any_false_eraseIdx {α : Type} (p : α → Bool) (l : List α) (i : Nat)
    (h : l.any p = false) : (l.eraseIdx i).any p = false := by
  induction l generalizing i with
  | nil => simp [List.eraseIdx]
  | cons y ys ih =>
    simp only [List.any_cons, Bool.or_eq_false_iff] at h
    cases i with
    | zero => simpa using h.2
    | succ n => simp [List.eraseIdx, h.1, ih n h.2]

theorem noDupPairs_eraseIdx (l : List WItem) (i : Nat)
    (h : noDupPairs l = true) : noDupPairs (l.eraseIdx i) = true := by
  induction l generalizing i with
  | nil => simpa using h
  | cons x xs ih =>
    simp only [noDupPairs, Bool.and_eq_true, Bool.not_eq_true'] at h
    cases i with
    | zero => simpa using h.2
    | succ n =>
      simp only [List.eraseIdx, noDupPairs, Bool.and_eq_true, Bool.not_eq_true']
      exact ⟨any_false_eraseIdx _ xs n h.1, ih n h.2⟩

theorem noDupPairs_append (l : List WItem) (h v : String)
    (hd : noDupPairs l = true) (hc : l.any (pairMatches h v) = false) :
    noDupPairs (l ++ [⟨h, v⟩]) = true := by
  induction l with
  | nil => simp [noDupPairs, pairMatches]
  | cons x xs ih =>
    simp only [noDupPairs, Bool.and_eq_true, Bool.not_eq_true'] at hd
    simp only [List.any_cons, Bool.or_eq_false_iff] at hc
    have hx : pairMatches x.handle x.variantId ⟨h, v⟩ = false := by
      simp only [pairMatches, Bool.and_eq_false_iff, beq_eq_false_iff_ne] at hc ⊢
      rcases hc.1 with h1 | h1
      · exact Or.inl (by simpa using Ne.symm h1)
      · exact Or.inr (by simpa using Ne.symm h1)
    simp [noDupPairs, List.any_append, hd.1, hd.2, hx, ih hd.2 hc.2]

theorem noDupPairs_update (w : List WItem) (h v : String)
    (hd : noDupPairs w = true) : noDupPairs (updateWishlist h v w) = true := by
  unfold updateWishlist
  cases hfind : w.findIdx? (pairMatches h v) with
  | none =>
    have hc : w.any (pairMatches h v) = false := by
      by_contra hcc
      rw [Bool.not_eq_false, List.any_eq_true] at hcc
      obtain ⟨x, hx, hpx⟩ := hcc
      have := List.findIdx?_eq_none_iff.mp hfind x hx
      simp [this] at hpx
    exact noDupPairs_append w h v hd hc
  | some i => exact noDupPairs_eraseIdx w i hd

end Wishlist

/-- C6: adding a `(handle, variantId)` pair not yet in the wishlist and then
removing it (two `updateWishlist` toggles) returns the persisted list to its
original state; `wishlistContains` decides membership exactly by equality of
the `(handle, variantId)` pair; one `updateWishlist` preserves freedom from
duplicate pairs; and every wishlist built from the empty initial state by
`updateWishlist` operations never contains two entries with the same pair. -/
theorem wishlist_round_trip_and_uniqueness
    (w : List Wishlist.WItem) (h v : String) (ops : List (String × String)) :
    (Wishlist.wishlistContains h v w = false →
      Wishlist.updateWishlist h v (Wishlist.updateWishlist h v w) = w)
    ∧ (Wishlist.wishlistContains h v w = true ↔
        ∃ it ∈ w, it.handle = h ∧ it.variantId = v)
    ∧ (Wishlist.noDupPairs w = true →
        Wishlist.noDupPairs (Wishlist.updateWishlist h v w) = true)
    ∧ Wishlist.noDupPairs
        (ops.foldl (fun acc p => Wishlist.updateWishlist p.1 p.2 acc) []) = true := by
  refine ⟨?_, ?_, Wishlist.noDupPairs_update w h v, ?_⟩
  · intro hc
    unfold Wishlist.wishlistContains at hc
    have h1 : Wishlist.updateWishlist h v w = w ++ [⟨h, v⟩] := by
      unfold Wishlist.updateWishlist
      rw [Wishlist.findIdx_eq_none_of_any_false _ _ hc]
    rw [h1]
    unfold Wishlist.updateWishlist
    rw [Wishlist.findIdx_append_singleton _ _ _ hc (by simp [Wishlist.pairMatches])]
    exact Wishlist.eraseIdx_append_length w _
  · unfold Wishlist.wishlistContains
    rw [List.any_eq_true]
    constructor
    · rintro ⟨it, hm, hp⟩
      refine ⟨it, hm, ?_⟩
      simpa [Wishlist.pairMatches] using hp
    · rintro ⟨it, hm, hp⟩
      refine ⟨it, hm, ?_⟩
      simp [Wishlist.pairMatches, hp.1, hp.2]
  · have general : ∀ (l : List (String × String)) (acc : List Wishlist.WItem),
        Wishlist.noDupPairs acc = true →
        Wishlist.noDupPairs
          (l.foldl (fun acc p => Wishlist.updateWishlist p.1 p.2 acc) acc) = true := by
      intro l
      induction l with
      | nil => intro acc hacc; simpa using hacc
      | cons p ps ih =>
        intro acc hacc
        exact ih _ (Wishlist.noDupPairs_update acc p.1 p.2 hacc)
    exact general ops [] rfl

/-- C6 witness: the theorem applied at the concrete wishlist
`[{a,1}]`, the pair `(b,2)` not contained in it, and a concrete operation
sequence, with the containment hypotheses discharged by computation. -/
theorem wishlist_round_trip_and_uniqueness_witness :
    (Wishlist.wishlistContains "b" "2" [⟨"a", "1"⟩] = false →
      Wishlist.updateWishlist "b" "2" (Wishlist.updateWishlist "b" "2" [⟨"a", "1"⟩])
        = [⟨"a", "1"⟩])
    ∧ (Wishlist.wishlistContains "b" "2" [⟨"a", "1"⟩] = true ↔
        ∃ it ∈ ([⟨"a", "1"⟩] : List Wishlist.WItem), it.handle = "b" ∧ it.variantId = "2")
    ∧ (Wishlist.noDupPairs [⟨"a", "1"⟩] = true →
        Wishlist.noDupPairs (Wishlist.updateWishlist "b" "2" [⟨"a", "1"⟩]) = true)
    ∧ Wishlist.noDupPairs
        (([("a", "1"), ("b", "2"), ("a", "1")] : List (String × String)).foldl
          (fun acc p => Wishlist.updateWishlist p.1 p.2 acc) []) = true :=
  wishlist_round_trip_and_uniqueness [⟨"a", "1"⟩] "b" "2" [("a", "1"), ("b", "2"), ("a", "1")]

namespace Teardown

/-- Configuration read during `BaseOverlay._init`: whether a toggle
attribute is declared (`getToggleAttribute`) and the subclass
`shouldCloseOnOutsideClick` policy. -/
structure Config where
  hasToggleAttribute : Bool
  shouldCloseOnOutsideClick : Bool
deriving DecidableEq, Repr

/-- Listener bookkeeping of one `BaseOverlay` instance: the `open`
attribute, the `_delegatedCleanupFunctions` array (by registration name),
the multiset of cleanup invocations performed so far, the delegated
listeners still active, and the listeners added directly with
`addEventListener` in `setupEventListeners`. -/
structure LState where
  attr : Option String
  pendingCleanups : List String
  invoked : List String
  activeDelegated : List String
  activeDirect : List String
deriving DecidableEq, Repr

/-- `_init` (theme.js lines 50-60 and 62-97): `setupToggles` registers the
document-scoped delegated toggle listener only when a toggle attribute is
declared, `setupDelegatedShowPage` always registers the delegated show-page
listener, and `setupEventListeners` adds the direct `keyup` listener plus a
direct `click` listener when `shouldCloseOnOutsideClick()` is true.  Each
delegated registration pushes its cleanup function onto
`_delegatedCleanupFunctions`. -/
def initState (cfg : Config) (a : Option String) : LState :=
  let dels := (if cfg.hasToggleAttribute then ["toggleDelegate"] else [])
      ++ ["showPageDelegate"]
  { attr := a,
    pendingCleanups := dels,
    invoked := [],
    activeDelegated := dels,
    activeDirect := ["keyup"] ++ (if cfg.shouldCloseOnOutsideClick then ["overlayClick"] else []) }

/-- `destroy` (theme.js lines 150-162): `close()` the overlay, remove the
entries of the (never-populated) `_toggleListeners` map, invoke every
function in `_delegatedCleanupFunctions` and reset that array.  The direct
`keyup`/`click` listeners added in `setupEventListeners` are bound functions
that are never stored, and `destroy` makes no `removeEventListener` call for
them. -/
def destroy (s : LState) : LState :=
  { attr := none,
    pendingCleanups := [],
    invoked := s.invoked ++ s.pendingCleanups,
    activeDelegated := s.activeDelegated.filter (fun n => !s.pendingCleanups.contains n),
    activeDirect := s.activeDirect }

end Teardown

/-- C7 counterexample: for an overlay with a toggle attribute and
outside-click dismissal enabled, after `destroy` the direct `keyup` and
`click` listeners registered during setup are still active, refuting
"no listener registered during setup remains active after teardown". -/
theorem overlay_destroy_counterexample :
    (Teardown.destroy (Teardown.initState ⟨true, true⟩ (some ""))).activeDirect
      = ["keyup", "overlayClick"]
    ∧ ¬((Teardown.destroy (Teardown.initState ⟨true, true⟩ (some ""))).activeDirect = []) := by
  refine ⟨by decide, by decide⟩

/-- C7 (amended): on detach the overlay is force-closed, every cleanup
function returned by a delegated-listener registration is invoked exactly
once — also across a repeated `destroy` — and no delegated listener remains
active; but the direct `keyup` and outside-click listeners added by
`setupEventListeners` are not removed by `destroy`. -/
theorem overlay_destroy_behavior (cfg : Teardown.Config) (a : Option String) (n : String) :
    ((Teardown.destroy (Teardown.initState cfg a)).attr = none)
    ∧ ((Teardown.destroy (Teardown.initState cfg a)).invoked
        = (Teardown.initState cfg a).pendingCleanups)
    ∧ ((Teardown.destroy (Teardown.destroy (Teardown.initState cfg a))).invoked
        = (Teardown.initState cfg a).pendingCleanups)
    ∧ ((Teardown.initState cfg a).pendingCleanups.count n ≤ 1)
    ∧ ((Teardown.destroy (Teardown.initState cfg a)).activeDelegated = [])
    ∧ ((Teardown.destroy (Teardown.initState cfg a)).activeDirect
        = (Teardown.initState cfg a).activeDirect) := by
  cases cfg with
  | mk tog out =>
    cases tog <;> cases out <;>
      refine ⟨rfl, by simp [Teardown.destroy, Teardown.initState],
        by simp [Teardown.destroy, Teardown.initState],
        ?_,
        by simp [Teardown.destroy, Teardown.initState, List.filter],
        rfl⟩ <;>
      · simp only [Teardown.initState]
        by_cases h1 : n = "toggleDelegate" <;> by_cases h2 : n = "showPageDelegate" <;>
          simp_all [List.count_cons]

namespace Events

/-- The option bag of the `CustomEvent` constructor: `bubbles` defaults to
`false` and `detail` defaults to `null` when omitted.  The `detail` field
holds a description of the payload object passed at the dispatch site, or
`none` when the site passes no detail. -/
structure EvtInit where
  bubbles : Bool := false
  detail : Option String := none
deriving DecidableEq, Repr

/-- A constructed `CustomEvent`. -/
structure CustomEvt where
  name : String
  bubbles : Bool
  detail : Option String
deriving DecidableEq, Repr

/-- `new CustomEvent(name, init)`. -/
def mkCustomEvent (name : String) (init : EvtInit) : CustomEvt :=
  ⟨name, init.bubbles, init.detail⟩

/-- `new CustomEvent('overlay:open', { bubbles: true })`
(theme.js line 137): no `detail` member is passed. -/
def overlayOpenEvent : CustomEvt := mkCustomEvent "overlay:open" { bubbles := true }

/-- `new CustomEvent('overlay:close', { bubbles: true })`
(theme.js line 147). -/
def overlayCloseEvent : CustomEvt := mkCustomEvent "overlay:close" { bubbles := true }

/-- `new CustomEvent('reload-on-event:loaded', { bubbles: true, detail:
{ sectionId, shopifySectionId } })` (ReloadOnEvent.reload). -/
def reloadOnEventLoadedEvent : CustomEvt :=
  mkCustomEvent "reload-on-event:loaded"
    { bubbles := true, detail := some "sectionId, shopifySectionId" }

/-- `new CustomEvent('shopify-wishlist:updated', { detail: { wishlist } })`
(localization-manager.js lines 481-484): no `bubbles` member is passed. -/
def wishlistUpdatedEvent : CustomEvt :=
  mkCustomEvent "shopify-wishlist:updated" { detail := some "wishlist" }

/-- `new CustomEvent('shopify-wishlist:init-product-grid',
{ detail: { wishlist } })` (setupGrid). -/
def wishlistInitProductGridEvent : CustomEvt :=
  mkCustomEvent "shopify-wishlist:init-product-grid" { detail := some "wishlist" }

/-- `new CustomEvent('shopify-wishlist:init-buttons', { detail:
{ wishlist } })` (initButtons). -/
def wishlistInitButtonsEvent : CustomEvt :=
  mkCustomEvent "shopify-wishlist:init-buttons" { detail := some "wishlist" }

/-- All custom events named by the claim, as constructed at their dispatch
sites. -/
def claimedEvents : List CustomEvt :=
  [overlayOpenEvent, overlayCloseEvent, reloadOnEventLoadedEvent,
   wishlistUpdatedEvent, wishlistInitProductGridEvent, wishlistInitButtonsEvent]

end Events

/-- C8 counterexample: not every claimed event both bubbles and carries a
detail payload — `overlay:open` (and `overlay:close`) bubbles but its
`detail` is null, and `shopify-wishlist:updated` carries a detail but does
not bubble. -/
theorem custom_events_counterexample :
    ¬(∀ e ∈ Events.claimedEvents, e.bubbles = true ∧ e.detail.isSome = true) := by
  intro h
  have := h Events.overlayOpenEvent (by decide)
  simp [Events.overlayOpenEvent, Events.mkCustomEvent] at this

/-- C8 (amended): `reload-on-event:loaded` bubbles and carries a detail
payload; `overlay:open` and `overlay:close` bubble but carry no detail
(`detail` is null); and the `shopify-wishlist:updated` /
`shopify-wishlist:init-*` events carry a detail payload but do not bubble. -/
theorem custom_events_flags :
    (Events.overlayOpenEvent.bubbles = true ∧ Events.overlayOpenEvent.detail = none)
    ∧ (Events.overlayCloseEvent.bubbles = true ∧ Events.overlayCloseEvent.detail = none)
    ∧ (Events.reloadOnEventLoadedEvent.bubbles = true
        ∧ Events.reloadOnEventLoadedEvent.detail.isSome = true)
    ∧ (Events.wishlistUpdatedEvent.bubbles = false
        ∧ Events.wishlistUpdatedEvent.detail.isSome = true)
    ∧ (Events.wishlistInitProductGridEvent.bubbles = false
        ∧ Events.wishlistInitProductGridEvent.detail.isSome = true)
    ∧ (Events.wishlistInitButtonsEvent.bubbles = false
        ∧ Events.wishlistInitButtonsEvent.detail.isSome = true) := by
  decide

namespace RVE

/-- A `MediaError` as `handleVideoError` reads it: the numeric `code` and
the `message` string. -/
structure MediaErr where
  code : Nat
  message : String
deriving DecidableEq, Repr

/-- Where the error handler's output goes: nothing at all, or one of the
two `console.warn` branches.  The handler has no user-facing output path. -/
inductive LogOut where
  | silent
  | warnHLS
  | warnGeneric
deriving DecidableEq, Repr

/-- `handleVideoError` (responsive-video.js lines 436-462): when a deferred
load-timing policy is set and the error is `MEDIA_ERR_SRC_NOT_SUPPORTED`
(code 4) with a message containing `Empty src attribute`, return without
logging; when the message mentions `HLS` or `DEMUXER_ERROR`, log the HLS
warning; otherwise log the generic video-error warning.  `err` is
`this.elements.video?.error` and may be absent. -/
def handleVideoError (lazyType : Option RVLoad.LoadType) (err : Option MediaErr) : LogOut :=
  let emptySrc := match err with
    | some e => e.code == 4 && JsStr.strIncludes e.message "Empty src attribute"
    | none => false
  if lazyType.isSome && emptySrc then .silent
  else
    let hls := match err with
      | some e => JsStr.strIncludes e.message "HLS" || JsStr.strIncludes e.message "DEMUXER_ERROR"
      | none => false
    if hls then .warnHLS else .warnGeneric

end RVE

/-- C9: the error handler is silent exactly when a deferred load-timing
policy is set and the media error is `MEDIA_ERR_SRC_NOT_SUPPORTED` (code 4)
with an `Empty src attribute` message; every other media error produces a
`console.warn` only — the handler has no other output — including the same
empty-source error when no deferred policy is set. -/
theorem video_error_suppression (lt : Option RVLoad.LoadType) (err : Option RVE.MediaErr) :
    (RVE.handleVideoError lt err = .silent ↔
      (lt.isSome = true ∧ ∃ e, err = some e ∧ e.code = 4
        ∧ JsStr.strIncludes e.message "Empty src attribute" = true))
    ∧ (RVE.handleVideoError lt err = .silent ∨
        RVE.handleVideoError lt err = .warnHLS ∨
        RVE.handleVideoError lt err = .warnGeneric)
    ∧ RVE.handleVideoError (some .manual)
        (some ⟨4, "MEDIA_ELEMENT_ERROR: Empty src attribute"⟩) = .silent
    ∧ RVE.handleVideoError none
        (some ⟨4, "MEDIA_ELEMENT_ERROR: Empty src attribute"⟩) = .warnGeneric
    ∧ RVE.handleVideoError (some .dom) (some ⟨2, "network failure"⟩) = .warnGeneric := by
  refine ⟨?_, ?_, by decide, by decide, by decide⟩
  · unfold RVE.handleVideoError
    cases lt with
    | none =>
      cases err with
      | none => simp
      | some e =>
        by_cases hh : (JsStr.strIncludes e.message "HLS"
            || JsStr.strIncludes e.message "DEMUXER_ERROR") = true <;> simp [hh]
    | some t =>
      cases err with
      | none => simp
      | some e =>
        by_cases hc : (e.code == 4 && JsStr.strIncludes e.message "Empty src attribute") = true
        · simp only [Option.isSome_some, Bool.true_and, hc, if_true]
          simp only [Bool.and_eq_true, beq_iff_eq] at hc
          simp [hc.1, hc.2]
        · simp only [Option.isSome_some, Bool.true_and, hc, if_false]
          simp only [Bool.and_eq_true, beq_iff_eq, not_and] at hc
          by_cases hh : (JsStr.strIncludes e.message "HLS"
              || JsStr.strIncludes e.message "DEMUXER_ERROR") = true <;>
            simp [hh] <;> intro h4 <;> exact Bool.eq_false_iff.mpr (hc h4)
  · unfold RVE.handleVideoError
    by_cases h1 : (lt.isSome && (match err with
      | some e => e.code == 4 && JsStr.strIncludes e.message "Empty src attribute"
      | none => false)) = true
    · simp [h1]
    · by_cases h2 : (match err with
        | some e => JsStr.strIncludes e.message "HLS"
            || JsStr.strIncludes e.message "DEMUXER_ERROR"
        | none => false) = true <;> simp [h1, h2]

namespace Json

/-- A JSON value as `JSON.parse` produces it.  Numbers are kept as their
literal text, which is all the wishlist code ever observes. -/
inductive JVal where
  | null
  | bool (b : Bool)
  | num (lit : String)
  | str (s : String)
  | arr (elems : List JVal)
  | obj (fields : List (String × JVal))
deriving Repr

/-- Drop leading JSON whitespace. -/
def skipWs : List Char → List Char
  | [] => []
  | c :: cs =>
    if c = ' ' || c = '\n' || c = '\t' || c = '\r' then skipWs cs else c :: cs

/-- Parse the body of a JSON string literal after the opening quote,
supporting the common escapes. -/
def parseStrBody : Nat → List Char → List Char → Option (String × List Char)
  | 0, _, _ => none
  | _ + 1, _, [] => none
  | fuel + 1, acc, c :: cs =>
    if c = '"' then some (String.mk acc.reverse, cs)
    else if c = '\\' then
      match cs with
      | [] => none
      | e :: cs' =>
        let dec : Option Char :=
          if e = 'n' then some '\n'
          else if e = 't' then some '\t'
          else if e = 'r' then some '\r'
          else if e = '"' || e = '\\' || e = '/' then some e
          else none
        match dec with
        | some d => parseStrBody fuel (d :: acc) cs'
        | none => none
    else parseStrBody fuel (c :: acc) cs

/-- Parse a JSON number literal (optional minus, digits, optional fraction,
optional exponent), returning its literal text. -/
def parseNumLit (input : List Char) : Option (String × List Char) :=
  let neg : List Char × List Char := match input with
    | '-' :: r => (['-'], r)
    | r => ([], r)
  let ds := neg.2.takeWhile Char.isDigit
  let rest1 := neg.2.drop ds.length
  if ds.isEmpty then none
  else
    let frac : Option (List Char × List Char) := match rest1 with
      | '.' :: r =>
        let fs := r.takeWhile Char.isDigit
        if fs.isEmpty then none else some ('.' :: fs, r.drop fs.length)
      | r => some ([], r)
    match frac with
    | none => none
    | some (fls, rest2) =>
      let expo : Option (List Char × List Char) := match rest2 with
        | e :: r =>
          if e = 'e' || e = 'E' then
            let sr : List Char × List Char := match r with
              | s :: r' => if s = '+' || s = '-' then ([s], r') else ([], r)
              | [] => ([], r)
            let es := sr.2.takeWhile Char.isDigit
            if es.isEmpty then none else some (e :: (sr.1 ++ es), sr.2.drop es.length)
          else some ([], rest2)
        | [] => some ([], rest2)
      match expo with
      | none => none
      | some (els, rest3) => some (String.mk (neg.1 ++ ds ++ fls ++ els), rest3)

mutual

/-- Parse one JSON value.  Fuel-indexed recursive descent over the
character list; the fuel argument strictly decreases on every recursive
call. -/
def parseVal : Nat → List Char → Option (JVal × List Char)
  | 0, _ => none
  | fuel + 1, input =>
    match skipWs input with
    | [] => none
    | c :: cs =>
      if c = 'n' then
        if JsStr.startsWithCL "ull".toList cs then some (.null, cs.drop 3) else none
      else if c = 't' then
        if JsStr.startsWithCL "rue".toList cs then some (.bool true, cs.drop 3) else none
      else if c = 'f' then
        if JsStr.startsWithCL "alse".toList cs then some (.bool false, cs.drop 4) else none
      else if c = '"' then
        match parseStrBody fuel [] cs with
        | some (s, rest) => some (.str s, rest)
        | none => none
      else if c = '[' then
        match skipWs cs with
        | ']' :: rest => some (.arr [], rest)
        | _ =>
          match parseVal fuel cs with
          | some (v, rest) => parseArrTail fuel [v] rest
          | none => none
      else if c = '{' then
        match skipWs cs with
        | '}' :: rest => some (.obj [], rest)
        | _ =>
          match parseMember fuel cs with
          | some (m, rest) => parseObjTail fuel [m] rest
          | none => none
      else if c = '-' || c.isDigit then
        match parseNumLit (c :: cs) with
        | some (lit, rest) => some (.num lit, rest)
        | none => none
      else none

/-- Parse the rest of a JSON array after its first element. -/
def parseArrTail : Nat → List JVal → List Char → Option (JVal × List Char)
  | 0, _, _ => none
  | fuel + 1, acc, input =>
    match skipWs input with
    | ',' :: rest =>
      match parseVal fuel rest with
      | some (v, rest') => parseArrTail fuel (acc ++ [v]) rest'
      | none => none
    | ']' :: rest => some (.arr acc, rest)
    | _ => none

/-- Parse one `"key": value` object member. -/
def parseMember : Nat → List Char → Option ((String × JVal) × List Char)
  | 0, _ => none
  | fuel + 1, input =>
    match skipWs input with
    | '"' :: cs =>
      match parseStrBody fuel [] cs with
      | some (k, rest) =>
        match skipWs rest with
        | ':' :: rest' =>
          match parseVal fuel rest' with
          | some (v, rest'') => some ((k, v), rest'')
          | none => none
        | _ => none
      | none => none
    | _ => none

/-- Parse the rest of a JSON object after its first member. -/
def parseObjTail : Nat → List (String × JVal) → List Char → Option (JVal × List Char)
  | 0, _, _ => none
  | fuel + 1, acc, input =>
    match skipWs input with
    | ',' :: rest =>
      match parseMember fuel rest with
      | some (m, rest') => parseObjTail fuel (acc ++ [m]) rest'
      | none => none
    | '}' :: rest => some (.obj acc, rest)
    | _ => none

end

/-- `JSON.parse(s)`: `some` value on well-formed input consumed entirely,
`none` when parsing fails (the JavaScript call throws).  Escapes beyond the
common ones (`\uXXXX`) are outside the fragment this model covers. -/
def jsonParse (s : String) : Option JVal :=
  match parseVal (s.toList.length + 1) s.toList with
  | some (v, rest) => if skipWs rest = [] then some v else none
  | none => none

/-- `getWishlist` (localization-manager.js lines 462-472) at the level of
the raw local-storage state: a missing key or an empty string short-circuits
(`wishlist || false`) to `[]`; a parse failure is caught and yields `[]`;
otherwise the `JSON.parse` result is returned unchanged — whatever value it
is. -/
def getWishlistStored (stored : Option String) : JVal :=
  match stored with
  | none => .arr []
  | some s =>
    if s = "" then .arr []
    else
      match jsonParse s with
      | some v => v
      | none => .arr []

/-- Would `wishlist.findIndex(...)` / `wishlist.some(...)` — the first step
of `updateWishlist` and `wishlistContains` — throw a `TypeError` on this
value?  In JavaScript those methods exist only on arrays. -/
def wishlistOpsThrow (v : JVal) : Bool :=
  match v with
  | .arr _ => false
  | _ => true

end Json

/-- C10 counterexample: the local-storage content `42` is valid JSON but
not an array; `getWishlist` returns the number unchanged — not a list — and
the add/remove/membership operations throw a `TypeError` on it
(`wishlist.findIndex is not a function`), refuting "getWishlist returns a
list for every content" and "never throw on every storage state". -/
theorem wishlist_get_counterexample :
    Json.getWishlistStored (some "42") = Json.JVal.num "42"
    ∧ Json.wishlistOpsThrow (Json.getWishlistStored (some "42")) = true := by
  exact ⟨rfl, rfl⟩

/-- C10 (amended): `getWishlist` returns the empty list when the key is
absent, when the stored text is empty, and when the stored text fails to
parse as JSON; when the stored text parses, the parsed value is returned
unchanged — an array makes every wishlist operation safe, but a valid
non-array JSON value is returned as-is and the add/remove/membership
operations throw on it. -/
theorem wishlist_get_total_on_unparseable (s : String) (v : Json.JVal) (l : List Json.JVal) :
    Json.getWishlistStored none = Json.JVal.arr []
    ∧ Json.getWishlistStored (some "") = Json.JVal.arr []
    ∧ Json.getWishlistStored (some "not json") = Json.JVal.arr []
    ∧ Json.wishlistOpsThrow (Json.getWishlistStored (some "not json")) = false
    ∧ (Json.jsonParse s = none → Json.getWishlistStored (some s) = Json.JVal.arr [])
    ∧ (Json.jsonParse s = some v → s ≠ "" → Json.getWishlistStored (some s) = v)
    ∧ (Json.jsonParse s = some (Json.JVal.arr l) → s ≠ "" →
        Json.wishlistOpsThrow (Json.getWishlistStored (some s)) = false) := by
  refine ⟨rfl, rfl, rfl, rfl, ?_, ?_, ?_⟩
  · intro h
    unfold Json.getWishlistStored
    by_cases hs : s = "" <;> simp [hs, h]
  · intro h hs
    simp [Json.getWishlistStored, hs, h]
  · intro h hs
    simp [Json.getWishlistStored, hs, h, Json.wishlistOpsThrow]

/-- C10 witness: the amended theorem applied at the stored text `[]`
(which parses to the empty array), with the parse hypotheses discharged by
computation. -/
theorem wishlist_get_total_on_unparseable_witness :
    Json.getWishlistStored (some "[]") = Json.JVal.arr []
    ∧ Json.wishlistOpsThrow (Json.getWishlistStored (some "[]")) = false :=
  ⟨(wishlist_get_total_on_unparseable "[]" (Json.JVal.arr []) []).2.2.2.2.2.1 rfl
      (by decide),
   (wishlist_get_total_on_unparseable "[]" (Json.JVal.arr []) []).2.2.2.2.2.2 rfl
      (by decide)⟩
